import Mathlib

/-!
Verification of the fetch-and-normalize core of the Cribl Cloud Explorer.

The source is a Python program; we give a shallow embedding of its dynamic
JSON values and of the extraction / aggregation functions.  Python method
calls that can raise (such as calling the dict method get on a non-dict
value) are modelled in the Option monad: a result of none means the Python
code raises an exception at that point.
-/

/-- Dynamic JSON values as decoded by the Python json module.  Objects are
association lists of string keys (Python dicts preserve insertion order). -/
inductive Json where
  | null : Json
  | bool (b : Bool) : Json
  | num (n : Int) : Json
  | str (s : String) : Json
  | arr (xs : List Json) : Json
  | obj (fields : List (String × Json)) : Json

mutual

/-- Decidable structural equality on JSON values. -/
def Json.decEq : (a b : Json) → Decidable (a = b)
  | .null, .null => .isTrue rfl
  | .null, .bool _ => .isFalse (fun h => Json.noConfusion h)
  | .null, .num _ => .isFalse (fun h => Json.noConfusion h)
  | .null, .str _ => .isFalse (fun h => Json.noConfusion h)
  | .null, .arr _ => .isFalse (fun h => Json.noConfusion h)
  | .null, .obj _ => .isFalse (fun h => Json.noConfusion h)
  | .bool _, .null => .isFalse (fun h => Json.noConfusion h)
  | .bool a, .bool b =>
    if h : a = b then .isTrue (congrArg Json.bool h)
    else .isFalse (fun hh => h (Json.bool.inj hh))
  | .bool _, .num _ => .isFalse (fun h => Json.noConfusion h)
  | .bool _, .str _ => .isFalse (fun h => Json.noConfusion h)
  | .bool _, .arr _ => .isFalse (fun h => Json.noConfusion h)
  | .bool _, .obj _ => .isFalse (fun h => Json.noConfusion h)
  | .num _, .null => .isFalse (fun h => Json.noConfusion h)
  | .num _, .bool _ => .isFalse (fun h => Json.noConfusion h)
  | .num a, .num b =>
    if h : a = b then .isTrue (congrArg Json.num h)
    else .isFalse (fun hh => h (Json.num.inj hh))
  | .num _, .str _ => .isFalse (fun h => Json.noConfusion h)
  | .num _, .arr _ => .isFalse (fun h => Json.noConfusion h)
  | .num _, .obj _ => .isFalse (fun h => Json.noConfusion h)
  | .str _, .null => .isFalse (fun h => Json.noConfusion h)
  | .str _, .bool _ => .isFalse (fun h => Json.noConfusion h)
  | .str _, .num _ => .isFalse (fun h => Json.noConfusion h)
  | .str a, .str b =>
    if h : a = b then .isTrue (congrArg Json.str h)
    else .isFalse (fun hh => h (Json.str.inj hh))
  | .str _, .arr _ => .isFalse (fun h => Json.noConfusion h)
  | .str _, .obj _ => .isFalse (fun h => Json.noConfusion h)
  | .arr _, .null => .isFalse (fun h => Json.noConfusion h)
  | .arr _, .bool _ => .isFalse (fun h => Json.noConfusion h)
  | .arr _, .num _ => .isFalse (fun h => Json.noConfusion h)
  | .arr _, .str _ => .isFalse (fun h => Json.noConfusion h)
  | .arr as, .arr bs =>
    match Json.decEqList as bs with
    | .isTrue h => .isTrue (congrArg Json.arr h)
    | .isFalse h => .isFalse (fun hh => h (Json.arr.inj hh))
  | .arr _, .obj _ => .isFalse (fun h => Json.noConfusion h)
  | .obj _, .null => .isFalse (fun h => Json.noConfusion h)
  | .obj _, .bool _ => .isFalse (fun h => Json.noConfusion h)
  | .obj _, .num _ => .isFalse (fun h => Json.noConfusion h)
  | .obj _, .str _ => .isFalse (fun h => Json.noConfusion h)
  | .obj _, .arr _ => .isFalse (fun h => Json.noConfusion h)
  | .obj as, .obj bs =>
    match Json.decEqFields as bs with
    | .isTrue h => .isTrue (congrArg Json.obj h)
    | .isFalse h => .isFalse (fun hh => h (Json.obj.inj hh))

/-- Decidable equality on lists of JSON values. -/
def Json.decEqList : (as bs : List Json) → Decidable (as = bs)
  | [], [] => .isTrue rfl
  | [], _ :: _ => .isFalse (fun h => List.noConfusion h)
  | _ :: _, [] => .isFalse (fun h => List.noConfusion h)
  | a :: as, b :: bs =>
    match Json.decEq a b, Json.decEqList as bs with
    | .isTrue h1, .isTrue h2 => .isTrue (by rw [h1, h2])
    | .isFalse h1, _ => .isFalse (fun hh => h1 (List.cons.inj hh).1)
    | _, .isFalse h2 => .isFalse (fun hh => h2 (List.cons.inj hh).2)

/-- Decidable equality on JSON object field lists. -/
def Json.decEqFields : (as bs : List (String × Json)) → Decidable (as = bs)
  | [], [] => .isTrue rfl
  | [], _ :: _ => .isFalse (fun h => List.noConfusion h)
  | _ :: _, [] => .isFalse (fun h => List.noConfusion h)
  | (k1, v1) :: as, (k2, v2) :: bs =>
    match String.decEq k1 k2, Json.decEq v1 v2, Json.decEqFields as bs with
    | .isTrue hk, .isTrue hv, .isTrue h2 => .isTrue (by rw [hk, hv, h2])
    | .isFalse hk, _, _ =>
      .isFalse (fun hh => hk (congrArg Prod.fst (List.cons.inj hh).1))
    | _, .isFalse hv, _ =>
      .isFalse (fun hh => hv (congrArg Prod.snd (List.cons.inj hh).1))
    | _, _, .isFalse h2 => .isFalse (fun hh => h2 (List.cons.inj hh).2)

end

instance : DecidableEq Json := Json.decEq

/-- First-match key lookup in an object field list (Python dict lookup). -/
def Json.lookup : List (String × Json) → String → Option Json
  | [], _ => none
  | (k0, v0) :: rest, k => if k0 = k then some v0 else Json.lookup rest k

/-- Python expression x.get(k, d).  Succeeds only when the receiver is a
dict; any other receiver raises AttributeError, modelled as none. -/
def pyGet (j : Json) (k : String) (d : Json) : Option Json :=
  match j with
  | .obj fields => some ((Json.lookup fields k).getD d)
  | _ => none

/-- Python iteration, for x in j.  Lists yield their elements, strings yield
one-character strings, dicts yield their keys; other values raise TypeError. -/
def pyIter : Json → Option (List Json)
  | .arr xs => some xs
  | .str s => some (s.data.map fun c => Json.str (String.mk [c]))
  | .obj fields => some (fields.map fun p => Json.str p.1)
  | _ => none

/-- Python len(j): defined for strings, lists and dicts; raises otherwise. -/
def pyLen : Json → Option Nat
  | .str s => some s.length
  | .arr xs => some xs.length
  | .obj fields => some fields.length
  | _ => none

/-- Python truthiness of a JSON value. -/
def pyTruthy : Json → Bool
  | .null => false
  | .bool b => b
  | .num n => n != 0
  | .str s => s != ""
  | .arr xs => !xs.isEmpty
  | .obj fields => !fields.isEmpty

/-- Normalized group record: one dict appended by extract_group_info. -/
structure GroupRec where
  id : Json
  name : Json
  product : Json
  description : Json
  worker_count : Json
  configVersion : Json
  deriving DecidableEq

/-- Normalized worker record: one dict appended by extract_worker_info. -/
structure WorkerRec where
  id : Json
  hostname : Json
  group : Json
  status : String
  version : Json
  ip : Json
  deriving DecidableEq

/-- Normalized source record: one dict appended by extract_input_info. -/
structure InputRec where
  id : Json
  type : Json
  disabled : Json
  port : Json
  description : Json
  deriving DecidableEq

/-- Normalized destination record: one dict appended by extract_output_info. -/
structure OutputRec where
  id : Json
  type : Json
  disabled : Json
  description : Json
  pipeline : Json
  deriving DecidableEq

/-- Normalized pipeline record: one dict appended by extract_pipeline_info. -/
structure PipelineRec where
  id : Json
  description : Json
  function_count : Nat
  functions : List Json
  disabled : Json
  deriving DecidableEq

/-- Normalized route record: one dict appended by extract_route_info. -/
structure RouteRec where
  id : Json
  name : Json
  filter : Json
  pipeline : Json
  output : Json
  enabled : Bool
  final : Json
  description : Json
  deriving DecidableEq

/-- The shared loop shape of all extractors: starting from an accumulator
list, append one extracted record per item (Python list append), stopping
with none as soon as extracting an item raises. -/
def appendLoop (f : Json → Option α) : List Json → List α → Option (List α)
  | [], acc => some acc
  | x :: rest, acc =>
    match f x with
    | none => none
    | some r => appendLoop f rest (acc ++ [r])

/-- Loop body of extract_group_info, building one record from one item. -/
def groupRec (group : Json) : Option GroupRec := do
  let idD ← pyGet group "id" (Json.str "N/A")
  let name ← pyGet group "name" idD
  let product ← pyGet group "product" (Json.str "stream")
  let description ← pyGet group "description" (Json.str "")
  let worker_count ← pyGet group "workerCount" (Json.num 0)
  let configVersion ← pyGet group "configVersion" (Json.str "N/A")
  pure { id := idD, name := name, product := product, description := description,
         worker_count := worker_count, configVersion := configVersion }

/-- extract_group_info from the source: read the items field (defaulting to
an empty list), loop over it and normalize each group item. -/
def extract_group_info (groups_data : Json) : Option (List GroupRec) := do
  let itemsJ ← pyGet groups_data "items" (Json.arr [])
  let items ← pyIter itemsJ
  appendLoop groupRec items []

/-- Loop body of extract_worker_info, building one record from one item. -/
def workerRec (worker : Json) : Option WorkerRec := do
  let info ← pyGet worker "info" (Json.obj [])
  let id ← pyGet worker "id" (Json.str "N/A")
  let hostD ← pyGet worker "hostname" (Json.str "N/A")
  let hostname ← pyGet info "hostname" hostD
  let group ← pyGet worker "group" (Json.str "N/A")
  let connected ← pyGet worker "connected" (Json.bool false)
  let cribl ← pyGet info "cribl" (Json.obj [])
  let version ← pyGet cribl "version" (Json.str "N/A")
  let host ← pyGet info "host" (Json.obj [])
  let ip ← pyGet host "ip" (Json.str "N/A")
  pure { id := id, hostname := hostname, group := group,
         status := if pyTruthy connected then "Online" else "Offline",
         version := version, ip := ip }

/-- extract_worker_info from the source. -/
def extract_worker_info (workers_data : Json) : Option (List WorkerRec) := do
  let itemsJ ← pyGet workers_data "items" (Json.arr [])
  let items ← pyIter itemsJ
  appendLoop workerRec items []

/-- Loop body of extract_input_info, building one record from one item. -/
def inputRec (inp : Json) : Option InputRec := do
  let id ← pyGet inp "id" (Json.str "N/A")
  let type ← pyGet inp "type" (Json.str "N/A")
  let disabled ← pyGet inp "disabled" (Json.bool false)
  let hostD ← pyGet inp "host" (Json.str "N/A")
  let port ← pyGet inp "port" hostD
  let description ← pyGet inp "description" (Json.str "")
  pure { id := id, type := type, disabled := disabled, port := port,
         description := description }

/-- extract_input_info from the source. -/
def extract_input_info (inputs_data : Json) : Option (List InputRec) := do
  let itemsJ ← pyGet inputs_data "items" (Json.arr [])
  let items ← pyIter itemsJ
  appendLoop inputRec items []

/-- Loop body of extract_output_info, building one record from one item. -/
def outputRec (out : Json) : Option OutputRec := do
  let id ← pyGet out "id" (Json.str "N/A")
  let type ← pyGet out "type" (Json.str "N/A")
  let disabled ← pyGet out "disabled" (Json.bool false)
  let description ← pyGet out "description" (Json.str "")
  let pipeline ← pyGet out "pipeline" (Json.str "")
  pure { id := id, type := type, disabled := disabled,
         description := description, pipeline := pipeline }

/-- extract_output_info from the source. -/
def extract_output_info (outputs_data : Json) : Option (List OutputRec) := do
  let itemsJ ← pyGet outputs_data "items" (Json.arr [])
  let items ← pyIter itemsJ
  appendLoop outputRec items []

/-- The list comprehension body of extract_pipeline_info: f.get applied to
one element of the functions list. -/
def funcId (f : Json) : Option Json := pyGet f "id" (Json.str "unknown")

/-- Loop body of extract_pipeline_info, building one record from one item. -/
def pipelineRec (pipe : Json) : Option PipelineRec := do
  let conf ← pyGet pipe "conf" (Json.obj [])
  let functionsJ ← pyGet conf "functions" (Json.arr [])
  let functionItems ← pyIter functionsJ
  let function_types ← appendLoop funcId functionItems []
  let fc ← pyLen functionsJ
  let id ← pyGet pipe "id" (Json.str "N/A")
  let description ← pyGet conf "description" (Json.str "")
  let disabled ← pyGet conf "disabled" (Json.bool false)
  pure { id := id, description := description, function_count := fc,
         functions := function_types.take 5, disabled := disabled }

/-- extract_pipeline_info from the source. -/
def extract_pipeline_info (pipelines_data : Json) : Option (List PipelineRec) := do
  let itemsJ ← pyGet pipelines_data "items" (Json.arr [])
  let items ← pyIter itemsJ
  appendLoop pipelineRec items []

/-- Inner loop body of extract_route_info: one embedded route entry. -/
def routeEntryRec (r : Json) : Option RouteRec := do
  let idD ← pyGet r "name" (Json.str "N/A")
  let id ← pyGet r "id" idD
  let name ← pyGet r "name" (Json.str "N/A")
  let filter ← pyGet r "filter" (Json.str "*")
  let pipeline ← pyGet r "pipeline" (Json.str "passthru")
  let output ← pyGet r "output" (Json.str "default")
  let disabled ← pyGet r "disabled" (Json.bool false)
  let final ← pyGet r "final" (Json.bool false)
  let description ← pyGet r "description" (Json.str "")
  pure { id := id, name := name, filter := filter, pipeline := pipeline,
         output := output, enabled := !pyTruthy disabled, final := final,
         description := description }

/-- Outer loop of extract_route_info: for each route-set item, read its
embedded routes list (defaulting to empty) and append one record per entry
to the shared accumulator. -/
def routeSetLoop : List Json → List RouteRec → Option (List RouteRec)
  | [], acc => some acc
  | route :: rest, acc =>
    match pyGet route "routes" (Json.arr []) with
    | none => none
    | some rl =>
      match pyIter rl with
      | none => none
      | some entries =>
        match appendLoop routeEntryRec entries acc with
        | none => none
        | some acc2 => routeSetLoop rest acc2

/-- extract_route_info from the source: one extra unnesting level relative
to the other extractors. -/
def extract_route_info (routes_data : Json) : Option (List RouteRec) := do
  let itemsJ ← pyGet routes_data "items" (Json.arr [])
  let items ← pyIter itemsJ
  routeSetLoop items []

/-- One group's aggregate entry inside the snapshot: the group record plus
its four nested resource lists. -/
structure GroupData where
  group : GroupRec
  inputs : List InputRec
  outputs : List OutputRec
  pipelines : List PipelineRec
  routes : List RouteRec
  deriving DecidableEq

/-- A Python dict key in canonical form.  Python identifies True with 1 and
False with 0 under dict hashing and equality, so booleans and integers
share one canonical integer constructor. -/
inductive PyKey where
  | none : PyKey
  | int (n : Int) : PyKey
  | str (s : String) : PyKey
  deriving DecidableEq

/-- The canonical dict key of a JSON value, or none when the value is
unhashable: using a list or dict as a dict key raises TypeError. -/
def pyKey : Json → Option PyKey
  | .null => some PyKey.none
  | .bool b => some (PyKey.int (if b then 1 else 0))
  | .num n => some (PyKey.int n)
  | .str s => some (PyKey.str s)
  | .arr _ => Option.none
  | .obj _ => Option.none

/-- The canonical key of a hashable JSON value; the fallback is arbitrary
and only reachable for unhashable values, which every use excludes. -/
def pyKeyD (j : Json) : PyKey := (pyKey j).getD (PyKey.int 0)

/-- Whether a JSON value is a JSON object (a Python dict). -/
def Json.isObj : Json → Bool
  | .obj _ => true
  | _ => false

/-- The in-memory topology snapshot assembled by fetch_all_data.  The
group_data dict is modelled as an insertion-ordered association list keyed
by the canonical dict key of the group id, matching Python dict assignment
semantics. -/
structure Snapshot where
  groups : List GroupRec
  workers : List WorkerRec
  group_data : List (PyKey × GroupData)
  deriving DecidableEq

/-- One HTTP request issued during an aggregation run, identified by its
logical endpoint; per-group endpoints carry the substituted group id. -/
inductive Request where
  | groups : Request
  | workers : Request
  | inputs (gid : Json) : Request
  | outputs (gid : Json) : Request
  | pipelines (gid : Json) : Request
  | routes (gid : Json) : Request
  deriving DecidableEq

/-- Result of one fetch_all_data invocation: the returned pair
(True, data) or (False, message), or a Python exception escaping. -/
inductive FetchOutcome where
  | ok (snap : Snapshot) : FetchOutcome
  | failed (msg : String) : FetchOutcome
  | raised : FetchOutcome
  deriving DecidableEq

/-- The transport environment of one aggregation run: the response every
endpoint would return, as delivered by the API client method of that
resource; error carries the client error message (success flag False). -/
structure Env where
  groupsResp : Except String Json
  workersResp : Except String Json
  inputsResp : Json → Except String Json
  outputsResp : Json → Except String Json
  pipelinesResp : Json → Except String Json
  routesResp : Json → Except String Json

/-- The per-group per-resource policy in the aggregation loop:
extract_x(data) if success else [].  A transport error yields the empty
list, a successful fetch is extracted (none when extraction raises). -/
def fetchExtract (resp : Except String Json) (extract : Json → Option (List α)) :
    Option (List α) :=
  match resp with
  | .error _ => some []
  | .ok d => extract d

/-- Keyed insertion on the association list: overwrite in place when the
canonical key is present, append otherwise. -/
def insertKeyed (m : List (PyKey × GroupData)) (k : PyKey) (v : GroupData) :
    List (PyKey × GroupData) :=
  match m with
  | [] => [(k, v)]
  | (k0, v0) :: rest =>
    if k0 = k then (k0, v) :: rest else (k0, v0) :: insertKeyed rest k v

/-- Python dict assignment d[k] = v: raises TypeError (none) when the key
is unhashable, otherwise stores under the canonical key, overwriting any
entry whose key compares equal under Python ==. -/
def insertAA (m : List (PyKey × GroupData)) (k : Json) (v : GroupData) :
    Option (List (PyKey × GroupData)) :=
  match pyKey k with
  | Option.none => Option.none
  | some pk => some (insertKeyed m pk v)

/-- Python dict lookup d.get(k) on the group_data association list, by
canonical key. -/
def lookupAA (m : List (PyKey × GroupData)) (k : PyKey) : Option GroupData :=
  match m with
  | [] => none
  | (k0, v0) :: rest => if k0 = k then some v0 else lookupAA rest k

/-- The per-group loop of fetch_all_data: for each group, issue the four
nested requests in order (inputs, outputs, pipelines, routes), apply the
partial-failure policy to each, store the entry under the group id, and
also record the requests issued.  Extraction raising aborts the run
immediately, before any later request; the dict assignment raising
TypeError on an unhashable group id aborts after the four requests of that
group. -/
def groupLoop (env : Env) :
    List GroupRec → List (PyKey × GroupData) →
      Option (List (PyKey × GroupData)) × List Request
  | [], agd => (some agd, [])
  | group :: rest, agd =>
    let gid := group.id
    match fetchExtract (env.inputsResp gid) extract_input_info with
    | none => (none, [Request.inputs gid])
    | some inputs =>
      match fetchExtract (env.outputsResp gid) extract_output_info with
      | none => (none, [Request.inputs gid, Request.outputs gid])
      | some outputs =>
        match fetchExtract (env.pipelinesResp gid) extract_pipeline_info with
        | none => (none, [Request.inputs gid, Request.outputs gid,
                          Request.pipelines gid])
        | some pipelines =>
          match fetchExtract (env.routesResp gid) extract_route_info with
          | none => (none, [Request.inputs gid, Request.outputs gid,
                            Request.pipelines gid, Request.routes gid])
          | some routes =>
            let entry : GroupData :=
              { group := group, inputs := inputs, outputs := outputs,
                pipelines := pipelines, routes := routes }
            match insertAA agd gid entry with
            | none => (none, [Request.inputs gid, Request.outputs gid,
                              Request.pipelines gid, Request.routes gid])
            | some agd2 =>
              let next := groupLoop env rest agd2
              (next.1,
               [Request.inputs gid, Request.outputs gid,
                Request.pipelines gid, Request.routes gid] ++ next.2)

/-- fetch_all_data from the source: fetch groups (fatal on error), extract;
fetch workers (fatal on error), extract; then run the per-group loop and
assemble the snapshot.  The second component lists the requests issued. -/
def fetch_all_data (env : Env) : FetchOutcome × List Request :=
  match env.groupsResp with
  | .error e => (.failed ("Failed to fetch groups: " ++ e), [Request.groups])
  | .ok groups_data =>
    match extract_group_info groups_data with
    | none => (.raised, [Request.groups])
    | some groups =>
      match env.workersResp with
      | .error e =>
        (.failed ("Failed to fetch workers: " ++ e),
         [Request.groups, Request.workers])
      | .ok workers_data =>
        match extract_worker_info workers_data with
        | none => (.raised, [Request.groups, Request.workers])
        | some workers =>
          match groupLoop env groups [] with
          | (none, reqs) => (.raised, [Request.groups, Request.workers] ++ reqs)
          | (some agd, reqs) =>
            (.ok { groups := groups, workers := workers, group_data := agd },
             [Request.groups, Request.workers] ++ reqs)

/-- The group_data entry that the aggregation loop stores for one group:
each resource list comes from its own fetch through the partial-failure
policy. -/
def groupEntry (env : Env) (g : GroupRec) : GroupData :=
  { group := g,
    inputs := (fetchExtract (env.inputsResp g.id) extract_input_info).getD [],
    outputs := (fetchExtract (env.outputsResp g.id) extract_output_info).getD [],
    pipelines := (fetchExtract (env.pipelinesResp g.id) extract_pipeline_info).getD [],
    routes := (fetchExtract (env.routesResp g.id) extract_route_info).getD [] }

/-- Element-wise traversal of a list in the Option monad, used to state the
shape of the extractor loops: one result per element, in order, failing as
soon as one element fails. -/
def optionMapM (f : α → Option β) : List α → Option (List β)
  | [] => some []
  | x :: rest =>
    match f x with
    | none => none
    | some r =>
      match optionMapM f rest with
      | none => none
      | some rs => some (r :: rs)


/-- The route entries one route-set item contributes: the embedded routes
list when it is present, nothing otherwise. -/
def routeSetEntries (s : Json) : List Json :=
  match s with
  | .obj sf =>
    match Json.lookup sf "routes" with
    | some (Json.arr es) => es
    | some _ => []
    | none => []
  | _ => []

/-- A groups payload carrying two groups with ids A and B. -/
def groupsPayloadAB : Json :=
  Json.obj [("items", Json.arr [Json.obj [("id", Json.str "A")],
                                Json.obj [("id", Json.str "B")]])]

/-- A payload with an empty items list. -/
def emptyItemsPayload : Json := Json.obj [("items", Json.arr [])]

/-- An inputs payload carrying one source item. -/
def inputsPayloadOne : Json :=
  Json.obj [("items", Json.arr [Json.obj [("id", Json.str "in1"),
                                          ("type", Json.str "http")]])]

/-- The group record extracted from a bare group item with id A. -/
def groupA : GroupRec :=
  { id := Json.str "A", name := Json.str "A", product := Json.str "stream",
    description := Json.str "", worker_count := Json.num 0,
    configVersion := Json.str "N/A" }

/-- The group record extracted from a bare group item with id B. -/
def groupB : GroupRec :=
  { id := Json.str "B", name := Json.str "B", product := Json.str "stream",
    description := Json.str "", worker_count := Json.num 0,
    configVersion := Json.str "N/A" }

/-- An aggregation environment in which groups and workers succeed but the
inputs fetch for group B fails with a transport error. -/
def envPartialFailure : Env :=
  { groupsResp := Except.ok groupsPayloadAB,
    workersResp := Except.ok emptyItemsPayload,
    inputsResp := fun gid =>
      if gid = Json.str "B" then
        Except.error "Connection failed. Check your URL and network connection."
      else Except.ok inputsPayloadOne,
    outputsResp := fun _ => Except.ok emptyItemsPayload,
    pipelinesResp := fun _ => Except.ok emptyItemsPayload,
    routesResp := fun _ => Except.ok emptyItemsPayload }

/-- An aggregation environment in which the workers fetch is rejected with
the Unauthorized client message. -/
def envWorkersUnauthorized : Env :=
  { groupsResp := Except.ok groupsPayloadAB,
    workersResp :=
      Except.error "Authentication failed. Please check your Bearer token.",
    inputsResp := fun _ => Except.ok emptyItemsPayload,
    outputsResp := fun _ => Except.ok emptyItemsPayload,
    pipelinesResp := fun _ => Except.ok emptyItemsPayload,
    routesResp := fun _ => Except.ok emptyItemsPayload }

/-- An aggregation environment in which the groups fetch itself fails. -/
def envGroupsFailed : Env :=
  { groupsResp :=
      Except.error "Endpoint not found: /api/v1/master/groups. Check your base URL.",
    workersResp := Except.ok emptyItemsPayload,
    inputsResp := fun _ => Except.ok emptyItemsPayload,
    outputsResp := fun _ => Except.ok emptyItemsPayload,
    pipelinesResp := fun _ => Except.ok emptyItemsPayload,
    routesResp := fun _ => Except.ok emptyItemsPayload }


/-- Well-formedness of one route-set item as a Bool: the item is an object
whose routes field, when present, is a list of objects. -/
def goodRouteSet : Json → Bool
  | .obj sf =>
    (match Json.lookup sf "routes" with
     | none => true
     | some (Json.arr es) =>
       es.all fun e => match e with | Json.obj _ => true | _ => false
     | some _ => false)
  | _ => false

/-- Appending into an accumulator across the loop is concatenation: the
extractor loop is optionMapM with the accumulator prepended. -/
theorem appendLoop_eq_mapM (f : Json → Option α) (xs : List Json) (acc : List α) :
    appendLoop f xs acc = (optionMapM f xs).map (fun ys => acc ++ ys) := by
  induction xs generalizing acc with
  | nil => simp [appendLoop, optionMapM]
  | cons x rest ih =>
    simp only [appendLoop, optionMapM]
    cases hx : f x with
    | none => simp
    | some r =>
      dsimp only
      rw [ih]
      cases hrest : optionMapM f rest with
      | none => simp
      | some ys => simp

/-- A successful optionMapM preserves length. -/
theorem optionMapM_length (f : α → Option β) (xs : List α) (ys : List β)
    (h : optionMapM f xs = some ys) : ys.length = xs.length := by
  induction xs generalizing ys with
  | nil => simp [optionMapM] at h; simp [← h]
  | cons x rest ih =>
    simp only [optionMapM] at h
    cases hx : f x with
    | none => simp [hx] at h
    | some r =>
      rw [hx] at h
      cases hrest : optionMapM f rest with
      | none => simp [hrest] at h
      | some zs =>
        rw [hrest] at h
        cases h
        simp [ih zs hrest]

/-- optionMapM succeeds when the function succeeds on every element. -/
theorem optionMapM_isSome (f : α → Option β) (xs : List α)
    (h : ∀ x ∈ xs, (f x).isSome) : ∃ ys, optionMapM f xs = some ys := by
  induction xs with
  | nil => exact ⟨[], rfl⟩
  | cons x rest ih =>
    obtain ⟨r, hr⟩ := Option.isSome_iff_exists.mp (h x (by simp))
    obtain ⟨ys, hys⟩ := ih (fun y hy => h y (by simp [hy]))
    exact ⟨r :: ys, by simp [optionMapM, hr, hys]⟩

/-- optionMapM distributes over list concatenation. -/
theorem optionMapM_append (f : α → Option β) (as bs : List α) :
    optionMapM f (as ++ bs) =
      match optionMapM f as with
      | none => none
      | some ys =>
        match optionMapM f bs with
        | none => none
        | some zs => some (ys ++ zs) := by
  induction as with
  | nil =>
    simp only [List.nil_append, optionMapM]
    cases optionMapM f bs <;> rfl
  | cons a rest ih =>
    simp only [List.cons_append, optionMapM]
    cases ha : f a with
    | none => rfl
    | some r =>
      dsimp only
      simp only [List.append_eq]
      rw [ih]
      cases optionMapM f rest with
      | none => rfl
      | some ys =>
        cases optionMapM f bs <;> rfl

/-- extract_group_info on a payload whose items field holds a list is the
element-wise traversal of that list. -/
theorem extract_group_info_eq (fields : List (String × Json)) (xs : List Json)
    (h : Json.lookup fields "items" = some (Json.arr xs)) :
    extract_group_info (Json.obj fields) = optionMapM groupRec xs := by
  simp only [extract_group_info, pyGet, h, Option.getD_some, Option.bind_eq_bind,
    Option.some_bind, pyIter, appendLoop_eq_mapM]
  cases optionMapM groupRec xs <;> simp

/-- extract_worker_info on a payload whose items field holds a list is the
element-wise traversal of that list. -/
theorem extract_worker_info_eq (fields : List (String × Json)) (xs : List Json)
    (h : Json.lookup fields "items" = some (Json.arr xs)) :
    extract_worker_info (Json.obj fields) = optionMapM workerRec xs := by
  simp only [extract_worker_info, pyGet, h, Option.getD_some, Option.bind_eq_bind,
    Option.some_bind, pyIter, appendLoop_eq_mapM]
  cases optionMapM workerRec xs <;> simp

/-- extract_input_info on a payload whose items field holds a list is the
element-wise traversal of that list. -/
theorem extract_input_info_eq (fields : List (String × Json)) (xs : List Json)
    (h : Json.lookup fields "items" = some (Json.arr xs)) :
    extract_input_info (Json.obj fields) = optionMapM inputRec xs := by
  simp only [extract_input_info, pyGet, h, Option.getD_some, Option.bind_eq_bind,
    Option.some_bind, pyIter, appendLoop_eq_mapM]
  cases optionMapM inputRec xs <;> simp

/-- extract_output_info on a payload whose items field holds a list is the
element-wise traversal of that list. -/
theorem extract_output_info_eq (fields : List (String × Json)) (xs : List Json)
    (h : Json.lookup fields "items" = some (Json.arr xs)) :
    extract_output_info (Json.obj fields) = optionMapM outputRec xs := by
  simp only [extract_output_info, pyGet, h, Option.getD_some, Option.bind_eq_bind,
    Option.some_bind, pyIter, appendLoop_eq_mapM]
  cases optionMapM outputRec xs <;> simp

/-- extract_pipeline_info on a payload whose items field holds a list is the
element-wise traversal of that list. -/
theorem extract_pipeline_info_eq (fields : List (String × Json)) (xs : List Json)
    (h : Json.lookup fields "items" = some (Json.arr xs)) :
    extract_pipeline_info (Json.obj fields) = optionMapM pipelineRec xs := by
  simp only [extract_pipeline_info, pyGet, h, Option.getD_some, Option.bind_eq_bind,
    Option.some_bind, pyIter, appendLoop_eq_mapM]
  cases optionMapM pipelineRec xs <;> simp

/-- extract_route_info on a payload whose items field holds a list runs the
route-set loop over that list. -/
theorem extract_route_info_eq (fields : List (String × Json)) (xs : List Json)
    (h : Json.lookup fields "items" = some (Json.arr xs)) :
    extract_route_info (Json.obj fields) = routeSetLoop xs [] := by
  simp only [extract_route_info, pyGet, h, Option.getD_some, Option.bind_eq_bind,
    Option.some_bind, pyIter]

/-- Looking up the key just stored returns the stored value. -/
theorem lookupAA_insertKeyed_self (m : List (PyKey × GroupData)) (k : PyKey)
    (v : GroupData) : lookupAA (insertKeyed m k v) k = some v := by
  induction m with
  | nil => simp [insertKeyed, lookupAA]
  | cons p rest ih =>
    obtain ⟨k0, v0⟩ := p
    by_cases hk : k0 = k
    · simp [insertKeyed, lookupAA, hk]
    · simp [insertKeyed, lookupAA, hk, ih]

/-- Storing under one key leaves the lookup of a different key unchanged. -/
theorem lookupAA_insertKeyed_ne (m : List (PyKey × GroupData)) (k q : PyKey)
    (v : GroupData) (hne : q ≠ k) :
    lookupAA (insertKeyed m k v) q = lookupAA m q := by
  induction m with
  | nil => simp [insertKeyed, lookupAA, Ne.symm hne]
  | cons p rest ih =>
    obtain ⟨k0, v0⟩ := p
    by_cases hk : k0 = k
    · subst hk
      simp [insertKeyed, lookupAA, Ne.symm hne]
    · simp only [insertKeyed, if_neg hk, lookupAA]
      by_cases hq : k0 = q
      · simp [hq]
      · simp [hq, ih]

/-- When every group id is hashable and every successful nested fetch
extracts without raising, the per-group loop succeeds and folds each group
entry into the dict under the canonical key of its id. -/
theorem groupLoop_fst_eq (env : Env) (groups : List GroupRec)
    (agd : List (PyKey × GroupData))
    (hhash : ∀ g ∈ groups, (pyKey g.id).isSome)
    (h : ∀ g ∈ groups,
      (fetchExtract (env.inputsResp g.id) extract_input_info).isSome ∧
      (fetchExtract (env.outputsResp g.id) extract_output_info).isSome ∧
      (fetchExtract (env.pipelinesResp g.id) extract_pipeline_info).isSome ∧
      (fetchExtract (env.routesResp g.id) extract_route_info).isSome) :
    (groupLoop env groups agd).1 =
      some (List.foldl
        (fun m g => insertKeyed m (pyKeyD g.id) (groupEntry env g)) agd groups) := by
  induction groups generalizing agd with
  | nil => simp [groupLoop]
  | cons g rest ih =>
    obtain ⟨h1, h2, h3, h4⟩ := h g (by simp)
    obtain ⟨a1, e1⟩ := Option.isSome_iff_exists.mp h1
    obtain ⟨a2, e2⟩ := Option.isSome_iff_exists.mp h2
    obtain ⟨a3, e3⟩ := Option.isSome_iff_exists.mp h3
    obtain ⟨a4, e4⟩ := Option.isSome_iff_exists.mp h4
    obtain ⟨pk, epk⟩ := Option.isSome_iff_exists.mp (hhash g (by simp))
    simp only [groupLoop, e1, e2, e3, e4, insertAA, epk]
    rw [ih _ (fun g1 hg1 => hhash g1 (by simp [hg1]))
        (fun g1 hg1 => h g1 (by simp [hg1]))]
    simp only [List.foldl_cons, groupEntry, e1, e2, e3, e4, Option.getD_some,
      pyKeyD, epk]

/-- Folding entries for groups whose canonical ids all differ from a key
leaves the lookup of that key unchanged. -/
theorem lookupAA_foldl_ne (env : Env) (groups : List GroupRec)
    (m : List (PyKey × GroupData)) (k : PyKey)
    (h : ∀ g ∈ groups, pyKeyD g.id ≠ k) :
    lookupAA (List.foldl
        (fun m g => insertKeyed m (pyKeyD g.id) (groupEntry env g)) m groups) k =
      lookupAA m k := by
  induction groups generalizing m with
  | nil => simp
  | cons g rest ih =>
    simp only [List.foldl_cons]
    rw [ih _ (fun g1 hg1 => h g1 (by simp [hg1]))]
    exact lookupAA_insertKeyed_ne _ _ _ _ (fun hh => h g (by simp) hh.symm)

/-- With pairwise distinct canonical group ids, the final dict maps each
canonical id to that group entry. -/
theorem lookupAA_foldl_mem (env : Env) (groups : List GroupRec)
    (m : List (PyKey × GroupData)) (g : GroupRec)
    (hnodup : (groups.map fun g => pyKeyD g.id).Nodup) (hmem : g ∈ groups) :
    lookupAA (List.foldl
        (fun m g => insertKeyed m (pyKeyD g.id) (groupEntry env g)) m groups)
        (pyKeyD g.id) =
      some (groupEntry env g) := by
  induction groups generalizing m with
  | nil => cases hmem
  | cons g0 rest ih =>
    simp only [List.map_cons, List.nodup_cons, List.mem_map] at hnodup
    rcases List.mem_cons.mp hmem with hg | hg
    · subst hg
      simp only [List.foldl_cons]
      rw [lookupAA_foldl_ne env rest _ (pyKeyD g.id)
        (fun g1 hg1 hh => hnodup.1 ⟨g1, hg1, hh⟩)]
      exact lookupAA_insertKeyed_self _ _ _
    · simp only [List.foldl_cons]
      exact ih _ hnodup.2 hg

/-- The partial-failure policy value, written by cases on the transport
response: an error yields the empty list, a successful response yields the
extraction result. -/
theorem fetchExtract_getD (resp : Except String Json)
    (extract : Json → Option (List α)) :
    (fetchExtract resp extract).getD [] =
      match resp with
      | .error _ => []
      | .ok d => (extract d).getD [] := by
  cases resp <;> rfl

/-- Claim C1: in every aggregation run whose groups fetch and workers fetch
succeed (and extract without raising), whose group ids are hashable with
pairwise distinct Python dict keys, and whose per-group nested fetches
each either fail with a transport error or extract without raising, the
aggregation reports success, and the group_data entry of every group maps
each failed nested resource to the empty list while every other resource
list is produced from the result of its own fetch. -/
theorem claim_C1_partial_failure (env : Env) (gd wd : Json)
    (groups : List GroupRec) (workers : List WorkerRec)
    (hg : env.groupsResp = .ok gd)
    (hge : extract_group_info gd = some groups)
    (hw : env.workersResp = .ok wd)
    (hwe : extract_worker_info wd = some workers)
    (hhash : ∀ g ∈ groups, (pyKey g.id).isSome)
    (hnodup : (groups.map fun g => pyKeyD g.id).Nodup)
    (hnested : ∀ g ∈ groups,
      (fetchExtract (env.inputsResp g.id) extract_input_info).isSome ∧
      (fetchExtract (env.outputsResp g.id) extract_output_info).isSome ∧
      (fetchExtract (env.pipelinesResp g.id) extract_pipeline_info).isSome ∧
      (fetchExtract (env.routesResp g.id) extract_route_info).isSome) :
    ∃ agd reqs,
      fetch_all_data env =
        (FetchOutcome.ok { groups := groups, workers := workers,
                           group_data := agd }, reqs) ∧
      ∀ g ∈ groups,
        lookupAA agd (pyKeyD g.id) = some
          { group := g,
            inputs :=
              match env.inputsResp g.id with
              | .error _ => []
              | .ok d => (extract_input_info d).getD [],
            outputs :=
              match env.outputsResp g.id with
              | .error _ => []
              | .ok d => (extract_output_info d).getD [],
            pipelines :=
              match env.pipelinesResp g.id with
              | .error _ => []
              | .ok d => (extract_pipeline_info d).getD [],
            routes :=
              match env.routesResp g.id with
              | .error _ => []
              | .ok d => (extract_route_info d).getD [] } := by
  have hloop := groupLoop_fst_eq env groups [] hhash hnested
  rcases hgl : groupLoop env groups [] with ⟨r, reqs2⟩
  rw [hgl] at hloop
  dsimp only at hloop
  subst hloop
  refine ⟨List.foldl
      (fun m g => insertKeyed m (pyKeyD g.id) (groupEntry env g)) [] groups,
    [Request.groups, Request.workers] ++ reqs2, ?_, ?_⟩
  · simp only [fetch_all_data, hg, hge, hw, hwe, hgl]
  · intro g hgmem
    rw [lookupAA_foldl_mem env groups [] g hnodup hgmem]
    simp only [groupEntry, fetchExtract_getD]

/-- Witness for claim C1: a concrete two-group run in which only the inputs
fetch of group B fails; the run succeeds, group A keeps its extracted
inputs, and group B gets an empty inputs list. -/
theorem claim_C1_partial_failure_witness :
    ∃ agd reqs,
      fetch_all_data envPartialFailure =
        (FetchOutcome.ok { groups := [groupA, groupB], workers := [],
                           group_data := agd }, reqs) ∧
      ∀ g ∈ [groupA, groupB],
        lookupAA agd (pyKeyD g.id) = some
          { group := g,
            inputs :=
              match envPartialFailure.inputsResp g.id with
              | .error _ => []
              | .ok d => (extract_input_info d).getD [],
            outputs :=
              match envPartialFailure.outputsResp g.id with
              | .error _ => []
              | .ok d => (extract_output_info d).getD [],
            pipelines :=
              match envPartialFailure.pipelinesResp g.id with
              | .error _ => []
              | .ok d => (extract_pipeline_info d).getD [],
            routes :=
              match envPartialFailure.routesResp g.id with
              | .error _ => []
              | .ok d => (extract_route_info d).getD [] } :=
  claim_C1_partial_failure envPartialFailure groupsPayloadAB emptyItemsPayload
    [groupA, groupB] [] rfl (by decide) rfl (by decide) (by decide) (by decide)
    (by decide)

/-- Claim C2: a failed workers fetch makes the aggregation return the
failure that names the workers resource, after issuing only the groups and
workers requests — no per-group nested fetch is attempted and no snapshot
(hence no group_data) is built; a failed groups fetch is equally fatal
after the single groups request. -/
theorem claim_C2_fatal_global :
    (∀ (env : Env) (gd : Json) (groups : List GroupRec) (e : String),
      env.groupsResp = .ok gd → extract_group_info gd = some groups →
      env.workersResp = .error e →
      fetch_all_data env =
        (.failed ("Failed to fetch workers: " ++ e),
         [Request.groups, Request.workers])) ∧
    (∀ (env : Env) (e : String),
      env.groupsResp = .error e →
      fetch_all_data env =
        (.failed ("Failed to fetch groups: " ++ e), [Request.groups])) := by
  constructor
  · intro env gd groups e hg hge hw
    simp only [fetch_all_data, hg, hge, hw]
  · intro env e hg
    simp only [fetch_all_data, hg]

/-- Witness for claim C2: concrete runs with an Unauthorized workers fetch
and with a failed groups fetch. -/
theorem claim_C2_fatal_global_witness :
    fetch_all_data envWorkersUnauthorized =
      (.failed ("Failed to fetch workers: " ++
        "Authentication failed. Please check your Bearer token."),
       [Request.groups, Request.workers]) ∧
    fetch_all_data envGroupsFailed =
      (.failed ("Failed to fetch groups: " ++
        "Endpoint not found: /api/v1/master/groups. Check your base URL."),
       [Request.groups]) :=
  ⟨claim_C2_fatal_global.1 envWorkersUnauthorized groupsPayloadAB [groupA, groupB]
      _ rfl (by decide) rfl,
   claim_C2_fatal_global.2 envGroupsFailed _ rfl⟩

/-- Claim C4: every one of the six extractors returns the empty list, not
an error, on any payload object that lacks a top-level items field. -/
theorem claim_C4_missing_items (fields : List (String × Json))
    (h : Json.lookup fields "items" = none) :
    extract_group_info (Json.obj fields) = some [] ∧
    extract_worker_info (Json.obj fields) = some [] ∧
    extract_input_info (Json.obj fields) = some [] ∧
    extract_output_info (Json.obj fields) = some [] ∧
    extract_pipeline_info (Json.obj fields) = some [] ∧
    extract_route_info (Json.obj fields) = some [] := by
  refine ⟨?_, ?_, ?_, ?_, ?_, ?_⟩ <;>
    simp [extract_group_info, extract_worker_info, extract_input_info,
      extract_output_info, extract_pipeline_info, extract_route_info,
      pyGet, h, pyIter, appendLoop, routeSetLoop]

/-- Witness for claim C4: the empty payload object has no items field and
every extractor returns the empty list on it. -/
theorem claim_C4_missing_items_witness :
    Json.lookup ([] : List (String × Json)) "items" = none ∧
    extract_group_info (Json.obj []) = some [] ∧
    extract_route_info (Json.obj []) = some [] :=
  ⟨rfl, (claim_C4_missing_items [] rfl).1, (claim_C4_missing_items [] rfl).2.2.2.2.2⟩

/-- Claim C7: a worker record extracted from a worker item carries status
Online exactly when the connected field is present and truthy, and status
Offline when it is absent or falsy. -/
theorem claim_C7_worker_status (wf : List (String × Json)) (r : WorkerRec)
    (h : workerRec (Json.obj wf) = some r) :
    r.status =
      match Json.lookup wf "connected" with
      | some v => if pyTruthy v then "Online" else "Offline"
      | none => "Offline" := by
  simp only [workerRec, pyGet, Option.getD_some, Option.bind_eq_bind,
    Option.some_bind, Option.bind_eq_some, Option.pure_def,
    Option.some.injEq] at h
  obtain ⟨hostname, hh, cribl, hcr, version, hv, host, hho, ip, hip, hr⟩ := h
  subst hr
  cases hc : Json.lookup wf "connected" with
  | none => simp [hc, pyTruthy]
  | some v => simp [hc]

/-- Witness for claim C7: a worker item with connected true is Online. -/
theorem claim_C7_worker_status_witness :
    ({ id := Json.str "w1", hostname := Json.str "N/A", group := Json.str "N/A",
       status := "Online", version := Json.str "N/A",
       ip := Json.str "N/A" } : WorkerRec).status =
      match Json.lookup [("id", Json.str "w1"), ("connected", Json.bool true)]
          "connected" with
      | some v => if pyTruthy v then "Online" else "Offline"
      | none => "Offline" :=
  claim_C7_worker_status [("id", Json.str "w1"), ("connected", Json.bool true)] _
    (by decide)

/-- Claim C8: every extractor is a pure function of its raw payload —
extracting the same payload twice yields structurally identical results. -/
theorem claim_C8_extractors_pure (d : Json) :
    extract_group_info d = extract_group_info d ∧
    extract_worker_info d = extract_worker_info d ∧
    extract_input_info d = extract_input_info d ∧
    extract_output_info d = extract_output_info d ∧
    extract_pipeline_info d = extract_pipeline_info d ∧
    extract_route_info d = extract_route_info d :=
  ⟨rfl, rfl, rfl, rfl, rfl, rfl⟩

/-- Claim C9: the port field of an extracted source record holds the raw
port value when present, the raw host value only when port is absent, and
the N/A sentinel only when both are absent. -/
theorem claim_C9_input_port (f : List (String × Json)) (r : InputRec)
    (h : inputRec (Json.obj f) = some r) :
    r.port =
      match Json.lookup f "port" with
      | some v => v
      | none =>
        match Json.lookup f "host" with
        | some w => w
        | none => Json.str "N/A" := by
  simp only [inputRec, pyGet, Option.getD_some, Option.bind_eq_bind,
    Option.some_bind, Option.pure_def, Option.some.injEq] at h
  subst h
  cases hp : Json.lookup f "port" with
  | none =>
    cases hh : Json.lookup f "host" with
    | none => simp [hp, hh]
    | some w => simp [hp, hh]
  | some v => simp [hp]

/-- Witness for claim C9: an item carrying both port and host maps port to
the port value. -/
theorem claim_C9_input_port_witness :
    ({ id := Json.str "N/A", type := Json.str "N/A", disabled := Json.bool false,
       port := Json.num 9200, description := Json.str "" } : InputRec).port =
      match Json.lookup [("port", Json.num 9200), ("host", Json.str "h")] "port" with
      | some v => v
      | none =>
        match Json.lookup [("port", Json.num 9200), ("host", Json.str "h")] "host" with
        | some w => w
        | none => Json.str "N/A" :=
  claim_C9_input_port [("port", Json.num 9200), ("host", Json.str "h")] _ (by decide)

/-- Claim C10: the group, worker, input, output and pipeline extractors
each produce exactly one normalized record per element of the items list,
in item order: the result is the element-wise traversal of the items and
its length equals the items length. -/
theorem claim_C10_one_record_per_item :
    (∀ (fields : List (String × Json)) (xs : List Json) (rs : List GroupRec),
      Json.lookup fields "items" = some (Json.arr xs) →
      extract_group_info (Json.obj fields) = some rs →
      optionMapM groupRec xs = some rs ∧ rs.length = xs.length) ∧
    (∀ (fields : List (String × Json)) (xs : List Json) (rs : List WorkerRec),
      Json.lookup fields "items" = some (Json.arr xs) →
      extract_worker_info (Json.obj fields) = some rs →
      optionMapM workerRec xs = some rs ∧ rs.length = xs.length) ∧
    (∀ (fields : List (String × Json)) (xs : List Json) (rs : List InputRec),
      Json.lookup fields "items" = some (Json.arr xs) →
      extract_input_info (Json.obj fields) = some rs →
      optionMapM inputRec xs = some rs ∧ rs.length = xs.length) ∧
    (∀ (fields : List (String × Json)) (xs : List Json) (rs : List OutputRec),
      Json.lookup fields "items" = some (Json.arr xs) →
      extract_output_info (Json.obj fields) = some rs →
      optionMapM outputRec xs = some rs ∧ rs.length = xs.length) ∧
    (∀ (fields : List (String × Json)) (xs : List Json) (rs : List PipelineRec),
      Json.lookup fields "items" = some (Json.arr xs) →
      extract_pipeline_info (Json.obj fields) = some rs →
      optionMapM pipelineRec xs = some rs ∧ rs.length = xs.length) := by
  refine ⟨?_, ?_, ?_, ?_, ?_⟩
  · intro fields xs rs h1 h2
    rw [extract_group_info_eq fields xs h1] at h2
    exact ⟨h2, optionMapM_length _ _ _ h2⟩
  · intro fields xs rs h1 h2
    rw [extract_worker_info_eq fields xs h1] at h2
    exact ⟨h2, optionMapM_length _ _ _ h2⟩
  · intro fields xs rs h1 h2
    rw [extract_input_info_eq fields xs h1] at h2
    exact ⟨h2, optionMapM_length _ _ _ h2⟩
  · intro fields xs rs h1 h2
    rw [extract_output_info_eq fields xs h1] at h2
    exact ⟨h2, optionMapM_length _ _ _ h2⟩
  · intro fields xs rs h1 h2
    rw [extract_pipeline_info_eq fields xs h1] at h2
    exact ⟨h2, optionMapM_length _ _ _ h2⟩

/-- Witness for claim C10: a singleton items list yields a singleton record
list for each of the five one-to-one extractors. -/
theorem claim_C10_one_record_per_item_witness :
    (optionMapM groupRec [Json.obj []] =
        some [{ id := Json.str "N/A", name := Json.str "N/A",
                product := Json.str "stream", description := Json.str "",
                worker_count := Json.num 0, configVersion := Json.str "N/A" }] ∧
      ([{ id := Json.str "N/A", name := Json.str "N/A",
          product := Json.str "stream", description := Json.str "",
          worker_count := Json.num 0,
          configVersion := Json.str "N/A" }] : List GroupRec).length =
        ([Json.obj []] : List Json).length) ∧
    (optionMapM workerRec [Json.obj []] =
        some [{ id := Json.str "N/A", hostname := Json.str "N/A",
                group := Json.str "N/A", status := "Offline",
                version := Json.str "N/A", ip := Json.str "N/A" }] ∧
      ([{ id := Json.str "N/A", hostname := Json.str "N/A",
          group := Json.str "N/A", status := "Offline",
          version := Json.str "N/A",
          ip := Json.str "N/A" }] : List WorkerRec).length =
        ([Json.obj []] : List Json).length) :=
  ⟨claim_C10_one_record_per_item.1 [("items", Json.arr [Json.obj []])]
      [Json.obj []] _ rfl (by decide),
   claim_C10_one_record_per_item.2.1 [("items", Json.arr [Json.obj []])]
      [Json.obj []] _ rfl (by decide)⟩

/-- Claim C6: for a pipeline item whose conf sub-object carries a functions
list, function_count is the length of the full list while the functions
field keeps only the first 5 extracted identifiers in order (so the count
can exceed the field length); when the nested list is absent — either
because conf is absent or because conf lacks a functions entry — the count
is 0 and the field is empty. -/
theorem claim_C6_pipeline_functions :
    (∀ (pf cf : List (String × Json)) (fs : List Json) (r : PipelineRec),
      Json.lookup pf "conf" = some (Json.obj cf) →
      Json.lookup cf "functions" = some (Json.arr fs) →
      pipelineRec (Json.obj pf) = some r →
      ∃ ids, optionMapM funcId fs = some ids ∧ ids.length = fs.length ∧
        r.function_count = fs.length ∧ r.functions = ids.take 5) ∧
    (∀ (pf : List (String × Json)) (r : PipelineRec),
      Json.lookup pf "conf" = none →
      pipelineRec (Json.obj pf) = some r →
      r.function_count = 0 ∧ r.functions = []) ∧
    (∀ (pf cf : List (String × Json)) (r : PipelineRec),
      Json.lookup pf "conf" = some (Json.obj cf) →
      Json.lookup cf "functions" = none →
      pipelineRec (Json.obj pf) = some r →
      r.function_count = 0 ∧ r.functions = []) := by
  refine ⟨?_, ?_, ?_⟩
  · intro pf cf fs r h1 h2 hr
    simp only [pipelineRec, pyGet, h1, Option.getD_some, Option.bind_eq_bind,
      Option.some_bind, h2, pyIter, appendLoop_eq_mapM, pyLen,
      Option.pure_def] at hr
    cases hm : optionMapM funcId fs with
    | none => rw [hm] at hr; simp at hr
    | some ids =>
      rw [hm] at hr
      simp only [Option.map_some', Option.some_bind, Option.some.injEq] at hr
      subst hr
      exact ⟨ids, rfl, optionMapM_length _ _ _ hm, rfl, by simp⟩
  · intro pf r h1 hr
    simp only [pipelineRec, pyGet, h1, Option.getD_none, Json.lookup,
      Option.bind_eq_bind, Option.some_bind, pyIter, appendLoop, pyLen,
      Option.pure_def, List.map_nil, Option.some.injEq] at hr
    subst hr
    exact ⟨rfl, rfl⟩
  · intro pf cf r h1 h2 hr
    simp only [pipelineRec, pyGet, h1, h2, Option.getD_some, Option.getD_none,
      Option.bind_eq_bind, Option.some_bind, pyIter, appendLoop, pyLen,
      Option.pure_def, List.map_nil, Option.some.injEq] at hr
    subst hr
    exact ⟨rfl, rfl⟩

/-- Witness for claim C6: a pipeline item with six functions keeps count 6
but only the first five identifiers. -/
theorem claim_C6_pipeline_functions_witness :
    ∃ ids, optionMapM funcId
        [Json.obj [("id", Json.str "f1")], Json.obj [("id", Json.str "f2")],
         Json.obj [("id", Json.str "f3")], Json.obj [("id", Json.str "f4")],
         Json.obj [("id", Json.str "f5")], Json.obj [("id", Json.str "f6")]] =
          some ids ∧
      ids.length =
        ([Json.obj [("id", Json.str "f1")], Json.obj [("id", Json.str "f2")],
          Json.obj [("id", Json.str "f3")], Json.obj [("id", Json.str "f4")],
          Json.obj [("id", Json.str "f5")],
          Json.obj [("id", Json.str "f6")]] : List Json).length ∧
      ({ id := Json.str "p1", description := Json.str "", function_count := 6,
         functions := [Json.str "f1", Json.str "f2", Json.str "f3",
                       Json.str "f4", Json.str "f5"],
         disabled := Json.bool false } : PipelineRec).function_count =
        ([Json.obj [("id", Json.str "f1")], Json.obj [("id", Json.str "f2")],
          Json.obj [("id", Json.str "f3")], Json.obj [("id", Json.str "f4")],
          Json.obj [("id", Json.str "f5")],
          Json.obj [("id", Json.str "f6")]] : List Json).length ∧
      ({ id := Json.str "p1", description := Json.str "", function_count := 6,
         functions := [Json.str "f1", Json.str "f2", Json.str "f3",
                       Json.str "f4", Json.str "f5"],
         disabled := Json.bool false } : PipelineRec).functions = ids.take 5 :=
  claim_C6_pipeline_functions.1
    [("id", Json.str "p1"),
     ("conf", Json.obj [("functions", Json.arr
        [Json.obj [("id", Json.str "f1")], Json.obj [("id", Json.str "f2")],
         Json.obj [("id", Json.str "f3")], Json.obj [("id", Json.str "f4")],
         Json.obj [("id", Json.str "f5")], Json.obj [("id", Json.str "f6")]])])]
    [("functions", Json.arr
        [Json.obj [("id", Json.str "f1")], Json.obj [("id", Json.str "f2")],
         Json.obj [("id", Json.str "f3")], Json.obj [("id", Json.str "f4")],
         Json.obj [("id", Json.str "f5")], Json.obj [("id", Json.str "f6")]])]
    _ _ (by decide) (by decide) (by decide)

/-- Extracting a route entry that is an object always succeeds. -/
theorem routeEntryRec_obj_isSome (ef : List (String × Json)) :
    (routeEntryRec (Json.obj ef)).isSome := by
  simp [routeEntryRec, pyGet]

/-- Extracting any element of a well-formed route-set item succeeds. -/
theorem routeEntryRec_goodRouteSet_isSome (s e : Json)
    (hgood : goodRouteSet s = true) (he : e ∈ routeSetEntries s) :
    (routeEntryRec e).isSome := by
  cases s with
  | obj sf =>
    simp only [goodRouteSet] at hgood
    cases hrl : Json.lookup sf "routes" with
    | none => simp [routeSetEntries, hrl] at he
    | some rl =>
      rw [hrl] at hgood
      cases rl with
      | arr es =>
        simp only [routeSetEntries, hrl] at he
        have := (List.all_eq_true.mp hgood) e he
        cases e with
        | obj ef => exact routeEntryRec_obj_isSome ef
        | null => simp at this
        | bool b => simp at this
        | num n => simp at this
        | str t => simp at this
        | arr ys => simp at this
      | null => simp at hgood
      | bool b => simp at hgood
      | num n => simp at hgood
      | str t => simp at hgood
      | obj g => simp at hgood
  | null => simp [goodRouteSet] at hgood
  | bool b => simp [goodRouteSet] at hgood
  | num n => simp [goodRouteSet] at hgood
  | str t => simp [goodRouteSet] at hgood
  | arr ys => simp [goodRouteSet] at hgood

/-- The route-set loop over well-formed items flattens the embedded route
entries of every item, in order, onto the accumulator. -/
theorem routeSetLoop_eq (sets : List Json) (acc : List RouteRec)
    (h : ∀ s ∈ sets, goodRouteSet s = true) :
    routeSetLoop sets acc =
      (optionMapM routeEntryRec (sets.flatMap routeSetEntries)).map
        (fun ys => acc ++ ys) := by
  induction sets generalizing acc with
  | nil => simp [routeSetLoop, optionMapM]
  | cons s rest ih =>
    have hgood := h s (by simp)
    have hrest : ∀ s ∈ rest, goodRouteSet s = true :=
      fun s hs => h s (by simp [hs])
    cases s with
    | obj sf =>
      simp only [routeSetLoop, pyGet]
      simp only [goodRouteSet] at hgood
      cases hrl : Json.lookup sf "routes" with
      | none =>
        simp only [hrl, Option.getD_none, pyIter, appendLoop]
        rw [ih _ hrest]
        simp [routeSetEntries, hrl]
      | some rl =>
        rw [hrl] at hgood
        cases rl with
        | arr es =>
          dsimp only at hgood
          simp only [hrl, Option.getD_some, pyIter]
          rw [appendLoop_eq_mapM]
          obtain ⟨ys, hys⟩ := optionMapM_isSome routeEntryRec es
            (fun e he => routeEntryRec_goodRouteSet_isSome (Json.obj sf) e
              (by simp only [goodRouteSet, hrl]; exact hgood)
              (by simp [routeSetEntries, hrl, he]))
          rw [hys]
          simp only [Option.map_some']
          rw [ih _ hrest]
          have hflat : (Json.obj sf :: rest).flatMap routeSetEntries =
              es ++ rest.flatMap routeSetEntries := by
            simp [routeSetEntries, hrl]
          rw [hflat, optionMapM_append, hys]
          cases optionMapM routeEntryRec (rest.flatMap routeSetEntries) with
          | none => simp
          | some zs => simp
        | null => simp at hgood
        | bool b => simp at hgood
        | num n => simp at hgood
        | str t => simp at hgood
        | obj g => simp at hgood
    | null => simp [goodRouteSet] at hgood
    | bool b => simp [goodRouteSet] at hgood
    | num n => simp [goodRouteSet] at hgood
    | str t => simp [goodRouteSet] at hgood
    | arr ys => simp [goodRouteSet] at hgood

/-- The length of a flattened list is the sum of the part lengths. -/
theorem length_flatMap_sum (f : α → List β) (l : List α) :
    (l.flatMap f).length = (l.map fun a => (f a).length).sum := by
  induction l with
  | nil => simp
  | cons a rest ih => simp [ih]

/-- Claim C5: on a route payload whose items are well-formed route sets,
the extractor returns exactly the records of all embedded entries, set by
set and entry by entry in original order, and the number of records is the
sum of the per-set entry counts; an item without an embedded routes list
contributes nothing. -/
theorem claim_C5_route_flatten (fields : List (String × Json)) (sets : List Json)
    (hitems : Json.lookup fields "items" = some (Json.arr sets))
    (hsets : ∀ s ∈ sets, goodRouteSet s = true) :
    ∃ L, extract_route_info (Json.obj fields) = some L ∧
      optionMapM routeEntryRec (sets.flatMap routeSetEntries) = some L ∧
      L.length = (sets.map fun s => (routeSetEntries s).length).sum := by
  rw [extract_route_info_eq fields sets hitems, routeSetLoop_eq sets [] hsets]
  obtain ⟨L, hL⟩ := optionMapM_isSome routeEntryRec (sets.flatMap routeSetEntries)
    (fun e he => by
      obtain ⟨s, hs, he2⟩ := List.mem_flatMap.mp he
      exact routeEntryRec_goodRouteSet_isSome s e (hsets s hs) he2)
  refine ⟨L, ?_, hL, ?_⟩
  · rw [hL]; simp
  · rw [optionMapM_length _ _ _ hL, length_flatMap_sum]

/-- Witness for claim C5: three route-set items carrying two, zero and one
embedded entries flatten to exactly three records. -/
theorem claim_C5_route_flatten_witness :
    ∃ L, extract_route_info (Json.obj [("items", Json.arr
        [Json.obj [("routes", Json.arr [Json.obj [("name", Json.str "r1")],
                                        Json.obj []])],
         Json.obj [],
         Json.obj [("routes", Json.arr [Json.obj [("id", Json.str "r3")]])]])]) =
          some L ∧
      optionMapM routeEntryRec
        (([Json.obj [("routes", Json.arr [Json.obj [("name", Json.str "r1")],
                                          Json.obj []])],
           Json.obj [],
           Json.obj [("routes", Json.arr [Json.obj [("id", Json.str "r3")]])]] :
            List Json).flatMap routeSetEntries) = some L ∧
      L.length =
        (([Json.obj [("routes", Json.arr [Json.obj [("name", Json.str "r1")],
                                          Json.obj []])],
           Json.obj [],
           Json.obj [("routes", Json.arr [Json.obj [("id", Json.str "r3")]])]] :
            List Json).map fun s => (routeSetEntries s).length).sum :=
  claim_C5_route_flatten
    [("items", Json.arr
        [Json.obj [("routes", Json.arr [Json.obj [("name", Json.str "r1")],
                                        Json.obj []])],
         Json.obj [],
         Json.obj [("routes", Json.arr [Json.obj [("id", Json.str "r3")]])]])]
    [Json.obj [("routes", Json.arr [Json.obj [("name", Json.str "r1")],
                                    Json.obj []])],
     Json.obj [],
     Json.obj [("routes", Json.arr [Json.obj [("id", Json.str "r3")]])]]
    rfl (by decide)

/-- Counterexample to claim C3: a worker item whose info field is a string
(a malformed sub-object) makes the worker extractor raise rather than
degrade, and likewise a pipeline item whose conf field is a string makes
the pipeline extractor raise. -/
theorem claim_C3_counterexample :
    extract_worker_info (Json.obj [("items", Json.arr
        [Json.obj [("id", Json.str "w1"), ("info", Json.str "oops")]])]) = none ∧
    extract_pipeline_info (Json.obj [("items", Json.arr
        [Json.obj [("id", Json.str "p1"), ("conf", Json.str "oops")]])]) = none := by
  decide

/-- pyGet on a dict receiver always succeeds with the looked-up or default
value. -/
theorem pyGet_obj (fields : List (String × Json)) (k : String) (d : Json) :
    pyGet (Json.obj fields) k d = some ((Json.lookup fields k).getD d) := rfl

set_option maxHeartbeats 2000000 in
/-- Claim C3 as amended: field reads apply their documented defaults when
the field is absent, and an absent nested sub-object (the worker info,
the info cribl block, the info host block, or the pipeline conf) makes
every affected leaf degrade to the same sentinel as an absent leaf;
however the extractors are not total — a nested sub-object that is
present but malformed (any non-object value) makes the extractor raise
instead of degrading. -/
theorem claim_C3_amended :
    (∀ wf : List (String × Json), Json.lookup wf "info" = none →
      ∃ r, workerRec (Json.obj wf) = some r ∧
        r.hostname = (Json.lookup wf "hostname").getD (Json.str "N/A") ∧
        r.version = Json.str "N/A" ∧ r.ip = Json.str "N/A") ∧
    (∀ pf : List (String × Json), Json.lookup pf "conf" = none →
      ∃ r, pipelineRec (Json.obj pf) = some r ∧
        r.description = Json.str "" ∧ r.function_count = 0 ∧
        r.functions = [] ∧ r.disabled = Json.bool false) ∧
    (∀ (wf inf : List (String × Json)) (r : WorkerRec),
      Json.lookup wf "info" = some (Json.obj inf) →
      workerRec (Json.obj wf) = some r →
      (Json.lookup inf "hostname" = none →
        r.hostname = (Json.lookup wf "hostname").getD (Json.str "N/A")) ∧
      (Json.lookup inf "cribl" = none → r.version = Json.str "N/A") ∧
      (Json.lookup inf "host" = none → r.ip = Json.str "N/A")) ∧
    (∀ (wf : List (String × Json)) (v : Json),
      Json.lookup wf "info" = some v → v.isObj = false →
      workerRec (Json.obj wf) = none) ∧
    (∀ (pf : List (String × Json)) (v : Json),
      Json.lookup pf "conf" = some v → v.isObj = false →
      pipelineRec (Json.obj pf) = none) ∧
    (∀ (wf inf : List (String × Json)) (v : Json),
      Json.lookup wf "info" = some (Json.obj inf) →
      Json.lookup inf "cribl" = some v → v.isObj = false →
      workerRec (Json.obj wf) = none) ∧
    (∀ (wf inf : List (String × Json)) (v : Json),
      Json.lookup wf "info" = some (Json.obj inf) →
      Json.lookup inf "host" = some v → v.isObj = false →
      workerRec (Json.obj wf) = none) := by
  refine ⟨?_, ?_, ?_, ?_, ?_, ?_, ?_⟩
  · intro wf h
    refine ⟨{ id := (Json.lookup wf "id").getD (Json.str "N/A"),
              hostname := (Json.lookup wf "hostname").getD (Json.str "N/A"),
              group := (Json.lookup wf "group").getD (Json.str "N/A"),
              status := if pyTruthy ((Json.lookup wf "connected").getD (Json.bool false))
                        then "Online" else "Offline",
              version := Json.str "N/A", ip := Json.str "N/A" },
      ?_, rfl, rfl, rfl⟩
    simp [workerRec, pyGet, h, Json.lookup]
  · intro pf h
    refine ⟨{ id := (Json.lookup pf "id").getD (Json.str "N/A"),
              description := Json.str "", function_count := 0,
              functions := [], disabled := Json.bool false },
      ?_, rfl, rfl, rfl, rfl⟩
    simp [pipelineRec, pyGet, h, Json.lookup, pyIter, pyLen, appendLoop]
  · intro wf inf r h1 hr
    simp only [workerRec, pyGet_obj, h1, Option.getD_some, Option.bind_eq_bind,
      Option.some_bind, Option.bind_eq_some, Option.pure_def,
      Option.some.injEq] at hr
    obtain ⟨version, hv, ip, hip, hr⟩ := hr
    subst hr
    refine ⟨?_, ?_, ?_⟩
    · intro hh
      simp [hh]
    · intro hc
      rw [hc] at hv
      simp only [Option.getD_none, pyGet_obj, Json.lookup, Option.getD_none,
        Option.some.injEq] at hv
      exact hv.symm
    · intro hh
      rw [hh] at hip
      simp only [Option.getD_none, pyGet_obj, Json.lookup, Option.getD_none,
        Option.some.injEq] at hip
      exact hip.symm
  · intro wf v h1 hv
    cases v with
    | obj inf => simp [Json.isObj] at hv
    | null => simp [workerRec, pyGet, h1]
    | bool b => simp [workerRec, pyGet, h1]
    | num n => simp [workerRec, pyGet, h1]
    | str t => simp [workerRec, pyGet, h1]
    | arr xs => simp [workerRec, pyGet, h1]
  · intro pf v h1 hv
    cases v with
    | obj cf => simp [Json.isObj] at hv
    | null => simp [pipelineRec, pyGet, h1]
    | bool b => simp [pipelineRec, pyGet, h1]
    | num n => simp [pipelineRec, pyGet, h1]
    | str t => simp [pipelineRec, pyGet, h1]
    | arr xs => simp [pipelineRec, pyGet, h1]
  · intro wf inf v h1 h2 hv
    cases v with
    | obj c => simp [Json.isObj] at hv
    | null => simp [workerRec, pyGet, h1, h2]
    | bool b => simp [workerRec, pyGet, h1, h2]
    | num n => simp [workerRec, pyGet, h1, h2]
    | str t => simp [workerRec, pyGet, h1, h2]
    | arr xs => simp [workerRec, pyGet, h1, h2]
  · intro wf inf v h1 h2 hv
    cases hcv : (Json.lookup inf "cribl").getD (Json.obj []) with
    | obj c =>
      cases v with
      | obj d => simp [Json.isObj] at hv
      | null => simp [workerRec, pyGet, h1, h2, hcv]
      | bool b => simp [workerRec, pyGet, h1, h2, hcv]
      | num n => simp [workerRec, pyGet, h1, h2, hcv]
      | str t => simp [workerRec, pyGet, h1, h2, hcv]
      | arr xs => simp [workerRec, pyGet, h1, h2, hcv]
    | null => simp [workerRec, pyGet, h1, hcv]
    | bool b => simp [workerRec, pyGet, h1, hcv]
    | num n => simp [workerRec, pyGet, h1, hcv]
    | str t => simp [workerRec, pyGet, h1, hcv]
    | arr xs => simp [workerRec, pyGet, h1, hcv]

/-- Witness for the amended claim C3: a worker item without an info block
extracts with the sentinel leaves; a worker item whose info is an object
lacking cribl and host degrades version and ip to the same sentinels; and
a worker item whose info is the non-object number 5 raises. -/
theorem claim_C3_amended_witness :
    (∃ r, workerRec (Json.obj [("hostname", Json.str "h1")]) = some r ∧
      r.hostname =
        (Json.lookup [("hostname", Json.str "h1")] "hostname").getD (Json.str "N/A") ∧
      r.version = Json.str "N/A" ∧ r.ip = Json.str "N/A") ∧
    ((Json.lookup [("hostname", Json.str "h2")] "hostname" = none →
       ({ id := Json.str "N/A", hostname := Json.str "h2",
          group := Json.str "N/A", status := "Offline",
          version := Json.str "N/A", ip := Json.str "N/A" } : WorkerRec).hostname =
         (Json.lookup [("info", Json.obj [("hostname", Json.str "h2")])]
             "hostname").getD (Json.str "N/A")) ∧
     (Json.lookup [("hostname", Json.str "h2")] "cribl" = none →
       ({ id := Json.str "N/A", hostname := Json.str "h2",
          group := Json.str "N/A", status := "Offline",
          version := Json.str "N/A", ip := Json.str "N/A" } : WorkerRec).version =
         Json.str "N/A") ∧
     (Json.lookup [("hostname", Json.str "h2")] "host" = none →
       ({ id := Json.str "N/A", hostname := Json.str "h2",
          group := Json.str "N/A", status := "Offline",
          version := Json.str "N/A", ip := Json.str "N/A" } : WorkerRec).ip =
         Json.str "N/A")) ∧
    workerRec (Json.obj [("info", Json.num 5)]) = none :=
  ⟨claim_C3_amended.1 [("hostname", Json.str "h1")] rfl,
   claim_C3_amended.2.2.1 [("info", Json.obj [("hostname", Json.str "h2")])]
     [("hostname", Json.str "h2")] _ rfl (by decide),
   claim_C3_amended.2.2.2.1 [("info", Json.num 5)] (Json.num 5) rfl rfl⟩
